import Mathlib

/-!
Shallow embedding of the joe CHIP-8 emulator core: the memory system
(src/memory.rs), the instruction decoder (src/instruction.rs), the display
(src/display.rs) and the CPU interpreter (src/cpu.rs).  Machine integers
(u8/u16/usize) are represented as natural numbers; wrapping arithmetic is
made explicit with `% 256` where the Rust code uses wrapping or overflowing
operations.  Fallible operations return `Except` mirroring Rust's `Result`.
-/

namespace Chip8

/-! Constants from src/lib.rs (`constants` module) and src/memory.rs. -/

def MEMORY_SIZE : Nat := 4096

def FONT_START_ADDR : Nat := 0x050

def PROGRAM_START_ADDR : Nat := 0x200

def NUM_REGISTERS : Nat := 16

def STACK_SIZE : Nat := 16

def DISPLAY_WIDTH : Nat := 64

def DISPLAY_HEIGHT : Nat := 32

def INTERPRETER_END_ADDR : Nat := 0x1FF

def FONT_HEIGHT : Nat := 5

def FONT_SET_SIZE : Nat := 16 * FONT_HEIGHT

def MAX_ROM_SIZE : Nat := MEMORY_SIZE - PROGRAM_START_ADDR

/-- Built-in hexadecimal font set (0-F), from src/memory.rs `FONT_SET`. -/
def FONT_SET : List Nat :=
  [0xF0, 0x90, 0x90, 0x90, 0xF0,
   0x20, 0x60, 0x20, 0x20, 0x70,
   0xF0, 0x10, 0xF0, 0x80, 0xF0,
   0xF0, 0x10, 0xF0, 0x10, 0xF0,
   0x90, 0x90, 0xF0, 0x10, 0x10,
   0xF0, 0x80, 0xF0, 0x10, 0xF0,
   0xF0, 0x80, 0xF0, 0x90, 0xF0,
   0xF0, 0x10, 0x20, 0x40, 0x40,
   0xF0, 0x90, 0xF0, 0x90, 0xF0,
   0xF0, 0x90, 0xF0, 0x10, 0xF0,
   0xF0, 0x90, 0xF0, 0x90, 0x90,
   0xE0, 0x90, 0xE0, 0x90, 0xE0,
   0xF0, 0x80, 0x80, 0x80, 0xF0,
   0xE0, 0x90, 0x90, 0x90, 0xE0,
   0xF0, 0x80, 0xF0, 0x80, 0xF0,
   0xF0, 0x80, 0xF0, 0x80, 0x80]

/-- Memory errors, from src/memory.rs `MemoryError`. -/
inductive MemoryError where
  | OutOfBounds (addr max : Nat)
  | WriteProtected (addr : Nat)
  | RomTooLarge (size max_size : Nat)
  | InvalidFontDigit (digit : Nat)
  | WordReadOutOfBounds (addr : Nat)
  | WordWriteOutOfBounds (addr : Nat)
deriving DecidableEq, Repr

/-- CHIP-8 memory system, from src/memory.rs `Memory`: 4KB RAM plus the
write-protection flag for the interpreter area. The RAM array is embedded as
a function from addresses to byte values. -/
structure Memory where
  ram : Nat → Nat
  write_protection_enabled : Bool

namespace Memory

/-- Load the built-in font set at FONT_START_ADDR (src/memory.rs `load_font_data`). -/
def load_font_data (m : Memory) : Memory :=
  { m with ram := fun a =>
      if FONT_START_ADDR ≤ a ∧ a < FONT_START_ADDR + FONT_SET_SIZE then
        FONT_SET.getD (a - FONT_START_ADDR) 0
      else m.ram a }

/-- Construct a memory system (src/memory.rs `Memory::new`): zeroed RAM with
the font loaded, and the given write-protection flag. -/
def new (write_protection_enabled : Bool) : Memory :=
  load_font_data { ram := fun _ => 0, write_protection_enabled := write_protection_enabled }

/-- Read a single byte (src/memory.rs `Memory::read_byte`). -/
def read_byte (m : Memory) (addr : Nat) : Except MemoryError Nat :=
  if addr ≥ MEMORY_SIZE then
    .error (.OutOfBounds addr (MEMORY_SIZE - 1))
  else
    .ok (m.ram addr)

/-- Write a single byte (src/memory.rs `Memory::write_byte`): bounds check,
then write-protection check for the interpreter area, then store. -/
def write_byte (m : Memory) (addr value : Nat) : Except MemoryError Memory :=
  if addr ≥ MEMORY_SIZE then
    .error (.OutOfBounds addr (MEMORY_SIZE - 1))
  else if m.write_protection_enabled ∧ addr ≤ INTERPRETER_END_ADDR then
    .error (.WriteProtected addr)
  else
    .ok { m with ram := fun a => if a = addr then value else m.ram a }

/-- Read a big-endian 16-bit word (src/memory.rs `Memory::read_word`). -/
def read_word (m : Memory) (addr : Nat) : Except MemoryError Nat :=
  if addr + 1 ≥ MEMORY_SIZE then
    .error (.WordReadOutOfBounds addr)
  else
    .ok (256 * m.ram addr + m.ram (addr + 1))

/-- Write a big-endian 16-bit word via two byte writes (src/memory.rs
`Memory::write_word`). -/
def write_word (m : Memory) (addr value : Nat) : Except MemoryError Memory :=
  if addr + 1 ≥ MEMORY_SIZE then
    .error (.WordWriteOutOfBounds addr)
  else
    match m.write_byte addr (value / 256 % 256) with
    | .error e => .error e
    | .ok m1 =>
      match m1.write_byte (addr + 1) (value % 256) with
      | .error e => .error e
      | .ok m2 => .ok m2

/-- Load ROM data starting at PROGRAM_START_ADDR (src/memory.rs `Memory::load_rom`). -/
def load_rom (m : Memory) (rom_data : List Nat) : Except MemoryError Memory :=
  if rom_data.length > MAX_ROM_SIZE then
    .error (.RomTooLarge rom_data.length MAX_ROM_SIZE)
  else
    .ok { m with ram := fun a =>
      (if PROGRAM_START_ADDR ≤ a ∧ a < PROGRAM_START_ADDR + rom_data.length then
        rom_data.getD (a - PROGRAM_START_ADDR) 0
      else m.ram a) }

/-- Enable or disable write protection (src/memory.rs `Memory::set_write_protection`). -/
def set_write_protection (m : Memory) (enabled : Bool) : Memory :=
  { m with write_protection_enabled := enabled }

/-- Query the write-protection flag (src/memory.rs `Memory::is_write_protection_enabled`). -/
def is_write_protection_enabled (m : Memory) : Bool :=
  m.write_protection_enabled

/-- Clear all memory then reload the font (src/memory.rs `Memory::reset`). -/
def reset (m : Memory) : Memory :=
  load_font_data { m with ram := fun _ => 0 }

end Memory

/-! Instruction decoder, from src/instruction.rs. -/

/-- Decode errors, from src/instruction.rs `DecodeError`. -/
inductive DecodeError where
  | UnknownInstruction (opcode : Nat)
  | InvalidRegister (register : Nat)
deriving DecidableEq, Repr

/-- All CHIP-8 instructions with operands, from src/instruction.rs `Instruction`. -/
inductive Instruction where
  | Cls
  | Ret
  | Sys (addr : Nat)
  | Jump (addr : Nat)
  | Call (addr : Nat)
  | JumpV0 (addr : Nat)
  | SkipEqImm (vx value : Nat)
  | SkipNeImm (vx value : Nat)
  | SkipEqReg (vx vy : Nat)
  | SkipNeReg (vx vy : Nat)
  | LoadImm (vx value : Nat)
  | LoadReg (vx vy : Nat)
  | SetIndex (addr : Nat)
  | AddImm (vx value : Nat)
  | AddReg (vx vy : Nat)
  | SubReg (vx vy : Nat)
  | SubnReg (vx vy : Nat)
  | OrReg (vx vy : Nat)
  | AndReg (vx vy : Nat)
  | XorReg (vx vy : Nat)
  | ShrReg (vx : Nat)
  | ShlReg (vx : Nat)
  | Draw (vx vy n : Nat)
  | SkipKeyPressed (vx : Nat)
  | SkipKeyNotPressed (vx : Nat)
  | Random (vx mask : Nat)
  | LoadDelayTimer (vx : Nat)
  | SetDelayTimer (vx : Nat)
  | SetSoundTimer (vx : Nat)
  | WaitKey (vx : Nat)
  | AddIndex (vx : Nat)
  | LoadFont (vx : Nat)
  | StoreBcd (vx : Nat)
  | StoreRegisters (vx : Nat)
  | LoadRegisters (vx : Nat)
deriving DecidableEq, Repr

/-- Decode a 16-bit opcode into an `Instruction`, from src/instruction.rs
`decode_opcode`: extract the common operand fields, validate register
indices, then dispatch on the high nibble and family sub-patterns. -/
def decode_opcode (opcode : Nat) : Except DecodeError Instruction :=
  let addr := opcode &&& 0x0FFF
  let vx := (opcode &&& 0x0F00) >>> 8
  let vy := (opcode &&& 0x00F0) >>> 4
  let byte := opcode &&& 0x00FF
  let nibble := opcode &&& 0x000F
  if vx > 15 then .error (.InvalidRegister vx)
  else if vy > 15 then .error (.InvalidRegister vy)
  else
    match opcode &&& 0xF000 with
    | 0x0000 =>
      match opcode with
      | 0x00E0 => .ok .Cls
      | 0x00EE => .ok .Ret
      | _ => .ok (.Sys addr)
    | 0x1000 => .ok (.Jump addr)
    | 0x2000 => .ok (.Call addr)
    | 0x3000 => .ok (.SkipEqImm vx byte)
    | 0x4000 => .ok (.SkipNeImm vx byte)
    | 0x5000 =>
      match nibble with
      | 0x0 => .ok (.SkipEqReg vx vy)
      | _ => .error (.UnknownInstruction opcode)
    | 0x6000 => .ok (.LoadImm vx byte)
    | 0x7000 => .ok (.AddImm vx byte)
    | 0x8000 =>
      match nibble with
      | 0x0 => .ok (.LoadReg vx vy)
      | 0x1 => .ok (.OrReg vx vy)
      | 0x2 => .ok (.AndReg vx vy)
      | 0x3 => .ok (.XorReg vx vy)
      | 0x4 => .ok (.AddReg vx vy)
      | 0x5 => .ok (.SubReg vx vy)
      | 0x6 => .ok (.ShrReg vx)
      | 0x7 => .ok (.SubnReg vx vy)
      | 0xE => .ok (.ShlReg vx)
      | _ => .error (.UnknownInstruction opcode)
    | 0x9000 =>
      match nibble with
      | 0x0 => .ok (.SkipNeReg vx vy)
      | _ => .error (.UnknownInstruction opcode)
    | 0xA000 => .ok (.SetIndex addr)
    | 0xB000 => .ok (.JumpV0 addr)
    | 0xC000 => .ok (.Random vx byte)
    | 0xD000 => .ok (.Draw vx vy nibble)
    | 0xE000 =>
      match byte with
      | 0x9E => .ok (.SkipKeyPressed vx)
      | 0xA1 => .ok (.SkipKeyNotPressed vx)
      | _ => .error (.UnknownInstruction opcode)
    | 0xF000 =>
      match byte with
      | 0x07 => .ok (.LoadDelayTimer vx)
      | 0x0A => .ok (.WaitKey vx)
      | 0x15 => .ok (.SetDelayTimer vx)
      | 0x18 => .ok (.SetSoundTimer vx)
      | 0x1E => .ok (.AddIndex vx)
      | 0x29 => .ok (.LoadFont vx)
      | 0x33 => .ok (.StoreBcd vx)
      | 0x55 => .ok (.StoreRegisters vx)
      | 0x65 => .ok (.LoadRegisters vx)
      | _ => .error (.UnknownInstruction opcode)
    | _ => .error (.UnknownInstruction opcode)

/-! Display, from src/display.rs. -/

/-- Display errors, from src/display.rs `DisplayError`. -/
inductive DisplayError where
  | EmptySpriteData
  | SpriteTooTall (height max_height : Nat)
deriving DecidableEq, Repr

/-- CHIP-8 display, from src/display.rs `Display`: the 64x32 framebuffer,
embedded as a function from (row, column) to pixel state. -/
structure Display where
  framebuffer : Nat → Nat → Bool

namespace Display

/-- Create a display with all pixels off (src/display.rs `Display::new`). -/
def new : Display :=
  { framebuffer := fun _ _ => false }

/-- Clear the display (src/display.rs `DisplayBus::clear` for `Display`). -/
def clear (_ : Display) : Display :=
  { framebuffer := fun _ _ => false }

/-- Draw one pixel of a sprite row (the body of the inner `for bit_pos in 0..8`
loop of src/display.rs `draw_sprite`), threading the (collision, framebuffer)
accumulator. -/
def draw_bit (x screen_y sprite_byte : Nat) (acc : Bool × (Nat → Nat → Bool))
    (bit_pos : Nat) : Bool × (Nat → Nat → Bool) :=
  let collision := acc.1
  let fb := acc.2
  let screen_x := (x + bit_pos) % DISPLAY_WIDTH
  let sprite_pixel := (sprite_byte >>> (7 - bit_pos)) &&& 1 = 1
  if sprite_pixel then
    let old_pixel := fb screen_y screen_x
    let new_pixel := old_pixel ^^ true
    let fb' := fun r c => if r = screen_y ∧ c = screen_x then new_pixel else fb r c
    (if old_pixel && !new_pixel then true else collision, fb')
  else
    (collision, fb)

/-- Draw one sprite row (the body of the outer loop of src/display.rs
`draw_sprite`): wrap the row coordinate and XOR the 8 pixels of the row byte. -/
def draw_row (x y : Nat) (acc : Bool × (Nat → Nat → Bool))
    (row : Nat × Nat) : Bool × (Nat → Nat → Bool) :=
  let screen_y := (y + row.1) % DISPLAY_HEIGHT
  (List.range 8).foldl (draw_bit x screen_y row.2) acc

/-- Draw a sprite with XOR logic and collision detection, from src/display.rs
`DisplayBus::draw_sprite` for `Display`. -/
def draw_sprite (d : Display) (x y : Nat) (sprite_data : List Nat) :
    Except DisplayError (Bool × Display) :=
  if sprite_data.isEmpty then
    .error .EmptySpriteData
  else if sprite_data.length > 15 then
    .error (.SpriteTooTall sprite_data.length 15)
  else
    let res := sprite_data.enum.foldl (draw_row x y) (false, d.framebuffer)
    .ok (res.1, { framebuffer := res.2 })

/-- Query a pixel (src/display.rs `DisplayBus::get_pixel` for `Display`):
out-of-range coordinates read as false. -/
def get_pixel (d : Display) (x y : Nat) : Bool :=
  if x ≥ DISPLAY_WIDTH ∨ y ≥ DISPLAY_HEIGHT then false
  else d.framebuffer y x

end Display

/-! CPU, from src/cpu.rs. -/

/-- Input bus oracle: the responses the input collaborator would give during
one CPU cycle. `try_get_key_press` models the non-blocking take-key operation
(`InputBus::try_get_key_press` as called by src/cpu.rs), `is_key_pressed` the
key-state query. -/
structure InputBus where
  try_get_key_press : Option Nat
  is_key_pressed : Nat → Bool

/-- CPU errors, from src/cpu.rs `CpuError`. -/
inductive CpuError where
  | Memory (e : MemoryError)
  | Decode (e : DecodeError)
  | Display (e : DisplayError)
  | StackOverflow (max_depth : Nat)
  | StackUnderflow
  | InvalidRegister (register : Nat)
  | InstructionExecutionFailed (instruction addr : Nat) (source : CpuError)
  | InvalidProgramCounter (pc : Nat)
deriving DecidableEq, Repr

/-- CPU execution state, from src/cpu.rs `CpuState`. -/
inductive CpuState where
  | Running
  | WaitingForKey (vx : Nat)
deriving DecidableEq, Repr

/-- CHIP-8 CPU state, from src/cpu.rs `Cpu`. The register file and the call
stack are embedded as functions from indices to values. -/
structure Cpu where
  v : Nat → Nat
  i : Nat
  pc : Nat
  sp : Nat
  stack : Nat → Nat
  delay_timer : Nat
  sound_timer : Nat
  state : CpuState

namespace Cpu

/-- Create a new CPU with default state (src/cpu.rs `Cpu::new`). -/
def new : Cpu :=
  { v := fun _ => 0
    i := 0
    pc := PROGRAM_START_ADDR
    sp := 0
    stack := fun _ => 0
    delay_timer := 0
    sound_timer := 0
    state := .Running }

/-- Update one register of the register file. -/
def setV (cpu : Cpu) (r value : Nat) : Cpu :=
  { cpu with v := fun j => if j = r then value else cpu.v j }

/-- Fetch the 16-bit big-endian instruction at PC and advance PC by 2, from
src/cpu.rs `Cpu::fetch_instruction`. Returns the opcode together with the
updated CPU. -/
def fetch_instruction (cpu : Cpu) (memory : Memory) : Except CpuError (Nat × Cpu) :=
  if cpu.pc ≥ MEMORY_SIZE - 1 then
    .error (.InvalidProgramCounter cpu.pc)
  else
    match memory.read_byte cpu.pc with
    | .error e => .error (.Memory e)
    | .ok high_byte =>
      match memory.read_byte (cpu.pc + 1) with
      | .error e => .error (.Memory e)
      | .ok low_byte =>
        .ok ((high_byte <<< 8) ||| low_byte, { cpu with pc := cpu.pc + 2 })

/-- Call a subroutine (src/cpu.rs `Cpu::call_subroutine`): push the current PC
and jump, or fail with `StackOverflow` when the stack is full. -/
def call_subroutine (cpu : Cpu) (addr : Nat) : Except CpuError Cpu :=
  if cpu.sp ≥ STACK_SIZE then
    .error (.StackOverflow STACK_SIZE)
  else
    .ok { cpu with
      stack := fun j => if j = cpu.sp then cpu.pc else cpu.stack j
      sp := cpu.sp + 1
      pc := addr }

/-- Return from a subroutine (src/cpu.rs `Cpu::return_from_subroutine`): pop
the return address, or fail with `StackUnderflow` when the stack is empty. -/
def return_from_subroutine (cpu : Cpu) : Except CpuError Cpu :=
  if cpu.sp = 0 then
    .error .StackUnderflow
  else
    .ok { cpu with
      sp := cpu.sp - 1
      pc := cpu.stack (cpu.sp - 1) }

/-- Read `n` sprite bytes from memory starting at address `i` (the sprite-read
loop of the Draw arm of src/cpu.rs `Cpu::execute_instruction`). -/
def read_sprite_data (memory : Memory) (i : Nat) : Nat → Except MemoryError (List Nat)
  | 0 => .ok []
  | n + 1 =>
    match read_sprite_data memory i n with
    | .error e => .error e
    | .ok bytes =>
      match memory.read_byte (i + n) with
      | .error e => .error e
      | .ok b => .ok (bytes ++ [b])

/-- Decode and execute an instruction, from src/cpu.rs `Cpu::execute_instruction`.
The Rust method mutates the CPU, memory and display in place; the embedding
returns the updated triple. The StoreBcd, StoreRegisters and LoadRegisters
arms are unimplemented stubs in src/cpu.rs (TODO comments) and return with no
state change. -/
def execute_instruction (cpu : Cpu) (opcode : Nat) (memory : Memory)
    (display : Display) (input : InputBus) :
    Except CpuError (Cpu × Memory × Display) :=
  match decode_opcode opcode with
  | .error e => .error (.Decode e)
  | .ok instruction =>
    match instruction with
    | .Cls => .ok (cpu, memory, display.clear)
    | .Ret =>
      match cpu.return_from_subroutine with
      | .error e => .error e
      | .ok cpu' => .ok (cpu', memory, display)
    | .Sys _ => .ok (cpu, memory, display)
    | .Jump addr => .ok ({ cpu with pc := addr }, memory, display)
    | .Call addr =>
      match cpu.call_subroutine addr with
      | .error e => .error e
      | .ok cpu' => .ok (cpu', memory, display)
    | .JumpV0 addr => .ok ({ cpu with pc := addr + cpu.v 0 }, memory, display)
    | .SkipEqImm vx value =>
      .ok (if cpu.v vx = value then { cpu with pc := cpu.pc + 2 } else cpu, memory, display)
    | .SkipNeImm vx value =>
      .ok (if cpu.v vx ≠ value then { cpu with pc := cpu.pc + 2 } else cpu, memory, display)
    | .SkipEqReg vx vy =>
      .ok (if cpu.v vx = cpu.v vy then { cpu with pc := cpu.pc + 2 } else cpu, memory, display)
    | .SkipNeReg vx vy =>
      .ok (if cpu.v vx ≠ cpu.v vy then { cpu with pc := cpu.pc + 2 } else cpu, memory, display)
    | .LoadImm vx value => .ok (cpu.setV vx value, memory, display)
    | .LoadReg vx vy => .ok (cpu.setV vx (cpu.v vy), memory, display)
    | .SetIndex addr => .ok ({ cpu with i := addr }, memory, display)
    | .AddImm vx value =>
      .ok (cpu.setV vx ((cpu.v vx + value) % 256), memory, display)
    | .AddReg vx vy =>
      let result := (cpu.v vx + cpu.v vy) % 256
      let overflow := cpu.v vx + cpu.v vy ≥ 256
      .ok (((cpu.setV vx result).setV 0xF (if overflow then 1 else 0)), memory, display)
    | .SubReg vx vy =>
      let result := (cpu.v vx + 256 - cpu.v vy) % 256
      let borrow := cpu.v vx < cpu.v vy
      .ok (((cpu.setV vx result).setV 0xF (if borrow then 0 else 1)), memory, display)
    | .SubnReg vx vy =>
      let result := (cpu.v vy + 256 - cpu.v vx) % 256
      let borrow := cpu.v vy < cpu.v vx
      .ok (((cpu.setV vx result).setV 0xF (if borrow then 0 else 1)), memory, display)
    | .OrReg vx vy => .ok (cpu.setV vx (cpu.v vx ||| cpu.v vy), memory, display)
    | .AndReg vx vy => .ok (cpu.setV vx (cpu.v vx &&& cpu.v vy), memory, display)
    | .XorReg vx vy => .ok (cpu.setV vx (cpu.v vx ^^^ cpu.v vy), memory, display)
    | .ShrReg vx =>
      let cpu1 := cpu.setV 0xF (cpu.v vx &&& 0x01)
      .ok (cpu1.setV vx (cpu1.v vx >>> 1), memory, display)
    | .ShlReg vx =>
      let cpu1 := cpu.setV 0xF ((cpu.v vx &&& 0x80) >>> 7)
      .ok (cpu1.setV vx ((cpu1.v vx <<< 1) % 256), memory, display)
    | .Draw vx vy n =>
      match read_sprite_data memory cpu.i n with
      | .error e => .error (.Memory e)
      | .ok sprite_data =>
        match display.draw_sprite (cpu.v vx) (cpu.v vy) sprite_data with
        | .error e => .error (.Display e)
        | .ok (collision, display') =>
          .ok (cpu.setV 0xF (if collision then 1 else 0), memory, display')
    | .SkipKeyPressed vx =>
      let key := cpu.v vx &&& 0x0F
      .ok (if input.is_key_pressed key then { cpu with pc := cpu.pc + 2 } else cpu,
        memory, display)
    | .SkipKeyNotPressed vx =>
      let key := cpu.v vx &&& 0x0F
      .ok (if !input.is_key_pressed key then { cpu with pc := cpu.pc + 2 } else cpu,
        memory, display)
    | .Random vx mask =>
      let random_value := 0x42
      .ok (cpu.setV vx (random_value &&& mask), memory, display)
    | .LoadDelayTimer vx => .ok (cpu.setV vx cpu.delay_timer, memory, display)
    | .SetDelayTimer vx => .ok ({ cpu with delay_timer := cpu.v vx }, memory, display)
    | .SetSoundTimer vx => .ok ({ cpu with sound_timer := cpu.v vx }, memory, display)
    | .WaitKey vx =>
      match input.try_get_key_press with
      | some key => .ok (cpu.setV vx key, memory, display)
      | none => .ok ({ cpu with state := .WaitingForKey vx }, memory, display)
    | .AddIndex vx => .ok ({ cpu with i := cpu.i + cpu.v vx }, memory, display)
    | .LoadFont vx =>
      .ok ({ cpu with i := FONT_START_ADDR + cpu.v vx * 5 }, memory, display)
    | .StoreBcd _ => .ok (cpu, memory, display)
    | .StoreRegisters _ => .ok (cpu, memory, display)
    | .LoadRegisters _ => .ok (cpu, memory, display)

/-- Execute one CPU cycle based on the current execution state, from
src/cpu.rs `Cpu::execute_cycle`. -/
def execute_cycle (cpu : Cpu) (memory : Memory) (display : Display)
    (input : InputBus) : Except CpuError (Cpu × Memory × Display) :=
  match cpu.state with
  | .Running =>
    let instruction_addr := cpu.pc
    match cpu.fetch_instruction memory with
    | .error e => .error e
    | .ok (instruction, cpu') =>
      match cpu'.execute_instruction instruction memory display input with
      | .error e => .error (.InstructionExecutionFailed instruction instruction_addr e)
      | .ok r => .ok r
  | .WaitingForKey vx =>
    match input.try_get_key_press with
    | some key => .ok ({ cpu.setV vx key with state := .Running }, memory, display)
    | none => .ok (cpu, memory, display)

end Cpu

/-! Theorems. -/

/-- Helper: a bitwise or of a value shifted past `n` bits with a value below
`2 ^ n` is plain addition. -/
theorem two_pow_mul_lor_eq_add (n : Nat) :
    ∀ a b : Nat, b < 2 ^ n → (2 ^ n * a) ||| b = 2 ^ n * a + b := by
  induction n with
  | zero =>
    intro a b hb
    have hb0 : b = 0 := by omega
    subst hb0
    simp
  | succ n ih =>
    intro a b hb
    have hdec := Nat.bit_decide_mod_two_eq_one_shiftRight_one b
    have hpow : 2 ^ (n + 1) = 2 * 2 ^ n := by ring
    have h1 : Nat.bit false (2 ^ n * a) = 2 ^ (n + 1) * a := by
      rw [Nat.bit_val]
      simp only [Bool.toNat_false, Nat.add_zero, hpow]
      ring
    have hb2 : b >>> 1 < 2 ^ n := by
      rw [Nat.shiftRight_one]
      omega
    rw [← h1, ← hdec, Nat.lor_bit, ih a (b >>> 1) hb2]
    simp only [Bool.false_or, Nat.bit_val, Nat.shiftRight_one]
    rcases Nat.even_or_odd b with he | ho
    · have hm : b % 2 = 0 := Nat.even_iff.mp he
      simp [hm]
      omega
    · have hm : b % 2 = 1 := Nat.odd_iff.mp ho
      simp [hm]
      omega

/-- Helper: combining a high byte and a low byte with shift and or yields the
big-endian 16-bit value. -/
theorem lor_high_low (hi lo : Nat) (hl : lo < 256) : (hi <<< 8) ||| lo = 256 * hi + lo := by
  have h1 : hi <<< 8 = 2 ^ 8 * hi := by
    rw [Nat.shiftLeft_eq]
    ring
  rw [h1, two_pow_mul_lor_eq_add 8 hi lo (by omega)]
  norm_num

/-- C3: fetching fails with InvalidProgramCounter exactly when PC or PC+1 falls
outside the 4096-byte memory; otherwise it reads the big-endian 16-bit opcode
at PC (high byte at the lower address) and advances PC by 2. -/
theorem fetch_instruction_spec (cpu : Cpu) (memory : Memory)
    (hbytes : ∀ a, memory.ram a < 256) :
    (cpu.pc + 1 ≥ MEMORY_SIZE →
      cpu.fetch_instruction memory = .error (.InvalidProgramCounter cpu.pc)) ∧
    (cpu.pc + 1 < MEMORY_SIZE →
      cpu.fetch_instruction memory =
        .ok (256 * memory.ram cpu.pc + memory.ram (cpu.pc + 1),
          { cpu with pc := cpu.pc + 2 })) := by
  constructor
  · intro hout
    simp only [MEMORY_SIZE] at hout
    have h1 : cpu.pc ≥ MEMORY_SIZE - 1 := by
      simp only [MEMORY_SIZE]
      omega
    simp only [Cpu.fetch_instruction, if_pos h1]
  · intro hin
    simp only [MEMORY_SIZE] at hin
    have h1 : ¬(cpu.pc ≥ MEMORY_SIZE - 1) := by
      simp only [MEMORY_SIZE]
      omega
    have h2 : ¬(cpu.pc ≥ MEMORY_SIZE) := by
      simp only [MEMORY_SIZE]
      omega
    have h3 : ¬(cpu.pc + 1 ≥ MEMORY_SIZE) := by
      simp only [MEMORY_SIZE]
      omega
    simp only [Cpu.fetch_instruction, Memory.read_byte, if_neg h1, if_neg h2, if_neg h3]
    rw [lor_high_low _ _ (hbytes (cpu.pc + 1))]

/-- Witness for C3: on a fresh CPU (PC = 0x200) and a protected fresh memory,
fetch succeeds, reads zero bytes and advances PC to 0x202; a CPU whose PC is
0xFFF fails with InvalidProgramCounter. -/
theorem fetch_instruction_spec_witness :
    (Cpu.new.fetch_instruction (Memory.new true) =
      .ok (256 * (Memory.new true).ram Cpu.new.pc + (Memory.new true).ram (Cpu.new.pc + 1),
        { Cpu.new with pc := Cpu.new.pc + 2 })) ∧
    ({ Cpu.new with pc := 0xFFF }.fetch_instruction (Memory.new true) =
      .error (.InvalidProgramCounter 0xFFF)) := by
  have hfont : ∀ j, FONT_SET.getD j 0 < 256 := by
    intro j
    by_cases hj : j < 80
    · exact (by decide : ∀ j < 80, FONT_SET.getD j 0 < 256) j hj
    · rw [List.getD_eq_default _ _ (by simp [FONT_SET]; omega)]
      decide
  have hbytes : ∀ a, (Memory.new true).ram a < 256 := by
    intro a
    simp only [Memory.new, Memory.load_font_data]
    split
    · exact hfont _
    · decide
  constructor
  · exact (fetch_instruction_spec Cpu.new (Memory.new true) hbytes).2 (by decide)
  · exact (fetch_instruction_spec { Cpu.new with pc := 0xFFF } (Memory.new true) hbytes).1
      (by decide)

/-- C7: for in-bounds addresses, a byte write followed by a read at the same
address round-trips the value, except that a write to the protected region
with protection enabled fails with WriteProtected (returning no modified
memory); any access at an address at or beyond 4096 fails with OutOfBounds
(also returning no modified memory). -/
theorem memory_write_read_spec (m : Memory) (addr value : Nat) :
    (addr < MEMORY_SIZE → ¬(m.write_protection_enabled = true ∧ addr ≤ INTERPRETER_END_ADDR) →
      ∃ m', m.write_byte addr value = .ok m' ∧ m'.read_byte addr = .ok value) ∧
    (addr < MEMORY_SIZE → m.write_protection_enabled = true → addr ≤ INTERPRETER_END_ADDR →
      m.write_byte addr value = .error (.WriteProtected addr)) ∧
    (addr ≥ MEMORY_SIZE →
      m.write_byte addr value = .error (.OutOfBounds addr (MEMORY_SIZE - 1)) ∧
      m.read_byte addr = .error (.OutOfBounds addr (MEMORY_SIZE - 1))) := by
  refine ⟨?_, ?_, ?_⟩
  · intro hin hprot
    have h1 : ¬(addr ≥ MEMORY_SIZE) := by omega
    refine ⟨{ m with ram := fun a => if a = addr then value else m.ram a }, ?_, ?_⟩
    · simp only [Memory.write_byte, if_neg h1, if_neg hprot]
    · simp [Memory.read_byte, if_neg h1]
  · intro hin hp hr
    have h1 : ¬(addr ≥ MEMORY_SIZE) := by omega
    have hc : m.write_protection_enabled = true ∧ addr ≤ INTERPRETER_END_ADDR := ⟨hp, hr⟩
    simp only [Memory.write_byte, if_neg h1, if_pos hc]
  · intro hout
    constructor
    · simp only [Memory.write_byte, if_pos hout]
    · simp only [Memory.read_byte, if_pos hout]

/-- Witness for C7: writing 0x42 at 0x300 in an unprotected fresh memory
round-trips; writing at 0x100 with protection on fails with WriteProtected;
accessing 0x1000 fails with OutOfBounds. -/
theorem memory_write_read_spec_witness :
    (∃ m', (Memory.new false).write_byte 0x300 0x42 = .ok m' ∧
      m'.read_byte 0x300 = .ok 0x42) ∧
    ((Memory.new true).write_byte 0x100 0x42 = .error (.WriteProtected 0x100)) ∧
    ((Memory.new true).write_byte 0x1000 0x42 =
      .error (.OutOfBounds 0x1000 (MEMORY_SIZE - 1))) := by
  refine ⟨?_, ?_, ?_⟩
  · exact (memory_write_read_spec (Memory.new false) 0x300 0x42).1 (by decide) (by decide)
  · exact (memory_write_read_spec (Memory.new true) 0x100 0x42).2.1 (by decide) (by decide)
      (by decide)
  · exact ((memory_write_read_spec (Memory.new true) 0x1000 0x42).2.2 (by decide)).1

/-- C4 counterexample: the public method `set_write_protection` changes the
write-protection flag after construction, refuting the claim that no public
operation on Memory can change it. -/
theorem set_write_protection_changes_flag :
    ((Memory.new true).set_write_protection false).is_write_protection_enabled ≠
      (Memory.new true).is_write_protection_enabled := by
  decide

/-- C4 amended: the write-protection flag is preserved by every public Memory
operation except the explicit `set_write_protection` setter: reset (which
zeroes all bytes and reloads the font), byte and word writes, ROM loading and
font loading all leave the flag unchanged. -/
theorem write_protection_flag_stable (m : Memory) :
    (m.reset).write_protection_enabled = m.write_protection_enabled ∧
    (m.load_font_data).write_protection_enabled = m.write_protection_enabled ∧
    (∀ addr value m', m.write_byte addr value = .ok m' →
      m'.write_protection_enabled = m.write_protection_enabled) ∧
    (∀ addr value m', m.write_word addr value = .ok m' →
      m'.write_protection_enabled = m.write_protection_enabled) ∧
    (∀ rom m', m.load_rom rom = .ok m' →
      m'.write_protection_enabled = m.write_protection_enabled) := by
  have hwb : ∀ (mm : Memory) addr value m', mm.write_byte addr value = .ok m' →
      m'.write_protection_enabled = mm.write_protection_enabled := by
    intro mm addr value m' h
    simp only [Memory.write_byte] at h
    split at h
    · exact absurd h (by simp)
    · split at h
      · exact absurd h (by simp)
      · cases h
        rfl
  refine ⟨rfl, rfl, hwb m, ?_, ?_⟩
  · intro addr value m' h
    simp only [Memory.write_word] at h
    split at h
    · exact absurd h (by simp)
    · split at h
      · exact absurd h (by simp)
      · rename_i m1 h1
        split at h
        · exact absurd h (by simp)
        · rename_i m2 h2
          cases h
          rw [hwb m1 _ _ _ h2, hwb m _ _ _ h1]
  · intro rom m' h
    simp only [Memory.load_rom] at h
    split at h
    · exact absurd h (by simp)
    · cases h
      rfl

/-- Witness for C4 amended: reset of a protected fresh memory keeps the flag,
and a successful byte write in an unprotected memory keeps the flag. -/
theorem write_protection_flag_stable_witness :
    ((Memory.new true).reset).write_protection_enabled =
      (Memory.new true).write_protection_enabled ∧
    (∃ m', (Memory.new false).write_byte 0x300 7 = .ok m' ∧
      m'.write_protection_enabled = (Memory.new false).write_protection_enabled) := by
  refine ⟨(write_protection_flag_stable (Memory.new true)).1, ⟨_, rfl, ?_⟩⟩
  exact (write_protection_flag_stable (Memory.new false)).2.2.1 0x300 7 _ rfl

/-- C2: decode is total: for every 16-bit opcode in 0..65536, `decode_opcode`
returns either a valid `Instruction` or the `UnknownInstruction` error carrying
that opcode — it never returns any other error kind (in particular,
unrecognized sub-patterns in the 0x5, 0x8, 0x9, 0xE, 0xF families yield
`UnknownInstruction`). -/
theorem decode_opcode_total (opcode : Nat) (h : opcode < 65536) :
    (∃ instruction, decode_opcode opcode = .ok instruction) ∨
      decode_opcode opcode = .error (.UnknownInstruction opcode) := by
  have hvx : ¬((opcode &&& 0x0F00) >>> 8 > 15) := by
    have h1 : opcode &&& 0x0F00 ≤ 0x0F00 := Nat.and_le_right
    have h2 : (opcode &&& 0x0F00) >>> 8 = (opcode &&& 0x0F00) / 256 := by
      rw [Nat.shiftRight_eq_div_pow]
    omega
  have hvy : ¬((opcode &&& 0x00F0) >>> 4 > 15) := by
    have h1 : opcode &&& 0x00F0 ≤ 0x00F0 := Nat.and_le_right
    have h2 : (opcode &&& 0x00F0) >>> 4 = (opcode &&& 0x00F0) / 16 := by
      rw [Nat.shiftRight_eq_div_pow]
    omega
  simp only [decode_opcode]
  rw [if_neg hvx, if_neg hvy]
  split <;> (try split) <;>
    first
      | exact Or.inl ⟨_, rfl⟩
      | exact Or.inr rfl

/-- Witness for C2 at concrete opcodes: 0x8564 decodes to AddReg and 0xF123
is rejected as UnknownInstruction. -/
theorem decode_opcode_total_witness :
    ((∃ instruction, decode_opcode 0x8564 = .ok instruction) ∨
      decode_opcode 0x8564 = .error (.UnknownInstruction 0x8564)) ∧
    ((∃ instruction, decode_opcode 0xF123 = .ok instruction) ∨
      decode_opcode 0xF123 = .error (.UnknownInstruction 0xF123)) :=
  ⟨decode_opcode_total 0x8564 (by decide), decode_opcode_total 0xF123 (by decide)⟩

/-- C6: executing AddReg sets Vx to the 8-bit wrapping sum of Vx and Vy and
sets VF to 1 exactly when the unwrapped sum exceeds 255, else to 0, for every
pair of register indices and register values; when vx = 0xF the result write
and the flag write target the same register and the flag write, being last,
determines the final value. All other registers are unchanged and the rest of
the CPU, memory and display state is untouched. -/
theorem addreg_spec (cpu : Cpu) (memory : Memory) (display : Display)
    (input : InputBus) (opcode vx vy : Nat)
    (hdec : decode_opcode opcode = .ok (.AddReg vx vy)) :
    ∃ cpu', cpu.execute_instruction opcode memory display input =
        .ok (cpu', memory, display) ∧
      cpu'.v 0xF = (if cpu.v vx + cpu.v vy ≥ 256 then 1 else 0) ∧
      (vx ≠ 0xF → cpu'.v vx = (cpu.v vx + cpu.v vy) % 256) ∧
      (∀ r, r ≠ vx → r ≠ 0xF → cpu'.v r = cpu.v r) ∧
      cpu'.pc = cpu.pc ∧ cpu'.i = cpu.i ∧ cpu'.sp = cpu.sp ∧
      cpu'.state = cpu.state := by
  simp only [Cpu.execute_instruction, hdec]
  refine ⟨_, rfl, ?_, ?_, ?_, rfl, rfl, rfl, rfl⟩
  · simp [Cpu.setV]
  · intro hne
    simp [Cpu.setV, hne]
  · intro r hrvx hr15
    simp [Cpu.setV, hrvx, hr15]

/-- Witness for C6: opcode 0x8124 (AddReg V1 V2) with V1 = 200, V2 = 100:
V1 becomes 44 and VF becomes 1. -/
theorem addreg_spec_witness :
    decode_opcode 0x8124 = .ok (.AddReg 1 2) ∧
    (∃ cpu', Cpu.execute_instruction ((Cpu.new.setV 1 200).setV 2 100) 0x8124
        (Memory.new true) Display.new ⟨none, fun _ => false⟩ =
        .ok (cpu', Memory.new true, Display.new) ∧
      cpu'.v 0xF = (if ((Cpu.new.setV 1 200).setV 2 100).v 1 +
          ((Cpu.new.setV 1 200).setV 2 100).v 2 ≥ 256 then 1 else 0) ∧
      (1 ≠ 0xF → cpu'.v 1 = (((Cpu.new.setV 1 200).setV 2 100).v 1 +
          ((Cpu.new.setV 1 200).setV 2 100).v 2) % 256) ∧
      (∀ r, r ≠ 1 → r ≠ 0xF → cpu'.v r = ((Cpu.new.setV 1 200).setV 2 100).v r) ∧
      cpu'.pc = ((Cpu.new.setV 1 200).setV 2 100).pc ∧
      cpu'.i = ((Cpu.new.setV 1 200).setV 2 100).i ∧
      cpu'.sp = ((Cpu.new.setV 1 200).setV 2 100).sp ∧
      cpu'.state = ((Cpu.new.setV 1 200).setV 2 100).state) :=
  ⟨rfl, addreg_spec ((Cpu.new.setV 1 200).setV 2 100) (Memory.new true) Display.new
    ⟨none, fun _ => false⟩ 0x8124 1 2 rfl⟩

/-- C10: executing the Random instruction is deterministic: Vx is assigned the
fixed constant 0x42 bitwise-ANDed with the mask, and the outcome is identical
for any two input collaborators, so no external randomness source influences
the result. -/
theorem random_spec (cpu : Cpu) (memory : Memory) (display : Display)
    (input input' : InputBus) (opcode vx mask : Nat)
    (hdec : decode_opcode opcode = .ok (.Random vx mask)) :
    cpu.execute_instruction opcode memory display input =
      .ok (cpu.setV vx (0x42 &&& mask), memory, display) ∧
    cpu.execute_instruction opcode memory display input =
      cpu.execute_instruction opcode memory display input' := by
  constructor
  · simp only [Cpu.execute_instruction, hdec]
  · simp only [Cpu.execute_instruction, hdec]

/-- Witness for C10: opcode 0xC3AB (Random V3, mask 0xAB) assigns
0x42 &&& 0xAB = 0x02 to V3 regardless of the input collaborator. -/
theorem random_spec_witness :
    decode_opcode 0xC3AB = .ok (.Random 3 0xAB) ∧
    (Cpu.execute_instruction Cpu.new 0xC3AB (Memory.new true) Display.new
        ⟨some 5, fun _ => true⟩ =
      .ok (Cpu.new.setV 3 (0x42 &&& 0xAB), Memory.new true, Display.new) ∧
    Cpu.execute_instruction Cpu.new 0xC3AB (Memory.new true) Display.new
        ⟨some 5, fun _ => true⟩ =
      Cpu.execute_instruction Cpu.new 0xC3AB (Memory.new true) Display.new
        ⟨none, fun _ => false⟩) :=
  ⟨rfl, random_spec Cpu.new (Memory.new true) Display.new ⟨some 5, fun _ => true⟩
    ⟨none, fun _ => false⟩ 0xC3AB 3 0xAB rfl⟩

/-- C8: the call stack holds at most 16 return addresses: a Call executed with
stack depth at least 16 fails with StackOverflow and returns no modified CPU
(stack pointer, stack contents and PC are untouched); a Call below the bound
pushes the current PC and increments the stack pointer without wrapping; a
Return executed with an empty stack fails with StackUnderflow, likewise
returning no modified CPU. -/
theorem call_return_stack_bounds (cpu : Cpu) (addr : Nat) :
    (cpu.sp ≥ STACK_SIZE → cpu.call_subroutine addr = .error (.StackOverflow STACK_SIZE)) ∧
    (cpu.sp < STACK_SIZE → cpu.call_subroutine addr = .ok { cpu with
        stack := fun j => if j = cpu.sp then cpu.pc else cpu.stack j
        sp := cpu.sp + 1
        pc := addr }) ∧
    (cpu.sp = 0 → cpu.return_from_subroutine = .error .StackUnderflow) := by
  refine ⟨?_, ?_, ?_⟩
  · intro h
    simp only [Cpu.call_subroutine, if_pos h]
  · intro h
    have h1 : ¬(cpu.sp ≥ STACK_SIZE) := by omega
    simp only [Cpu.call_subroutine, if_neg h1]
  · intro h
    simp only [Cpu.return_from_subroutine, if_pos h]

/-- Witness for C8: with stack depth 16 a call fails with StackOverflow; a
fresh CPU (depth 0) can call, and a fresh CPU cannot return. -/
theorem call_return_stack_bounds_witness :
    ({ Cpu.new with sp := 16 }.call_subroutine 0x300 =
      .error (.StackOverflow STACK_SIZE)) ∧
    (Cpu.new.call_subroutine 0x300 = .ok { Cpu.new with
        stack := fun j => if j = Cpu.new.sp then Cpu.new.pc else Cpu.new.stack j
        sp := Cpu.new.sp + 1
        pc := 0x300 }) ∧
    (Cpu.new.return_from_subroutine = .error .StackUnderflow) :=
  ⟨(call_return_stack_bounds { Cpu.new with sp := 16 } 0x300).1 (by decide),
   (call_return_stack_bounds Cpu.new 0x300).2.1 (by decide),
   (call_return_stack_bounds Cpu.new 0x300).2.2 rfl⟩

/-- C1 (failing-input evaluation): the StoreBcd, StoreRegisters and
LoadRegisters arms of execute_instruction are unimplemented stubs. With
V5 = 123 and I = 0x300, executing 0xF533 (StoreBcd V5), 0xF555
(StoreRegisters) or 0xF565 (LoadRegisters) returns every component of the
state unchanged, and in particular memory at I, I+1, I+2 still holds 0 0 0
rather than the decimal digits 1 2 3 of V5. -/
theorem store_load_instructions_are_stubs :
    (Cpu.execute_instruction ({ Cpu.new with i := 0x300 }.setV 5 123) 0xF533
        (Memory.new true) Display.new ⟨none, fun _ => false⟩ =
      .ok ({ Cpu.new with i := 0x300 }.setV 5 123, Memory.new true, Display.new)) ∧
    (Cpu.execute_instruction ({ Cpu.new with i := 0x300 }.setV 5 123) 0xF555
        (Memory.new true) Display.new ⟨none, fun _ => false⟩ =
      .ok ({ Cpu.new with i := 0x300 }.setV 5 123, Memory.new true, Display.new)) ∧
    (Cpu.execute_instruction ({ Cpu.new with i := 0x300 }.setV 5 123) 0xF565
        (Memory.new true) Display.new ⟨none, fun _ => false⟩ =
      .ok ({ Cpu.new with i := 0x300 }.setV 5 123, Memory.new true, Display.new)) ∧
    (Memory.new true).ram 0x300 = 0 ∧ (Memory.new true).ram 0x301 = 0 ∧
    (Memory.new true).ram 0x302 = 0 :=
  ⟨rfl, rfl, rfl, rfl, rfl, rfl⟩

/-- C5: when the CPU is waiting for a key, a cycle consults the non-blocking
take-key operation: an available key is stored in the target register and the
state returns to Running, otherwise the cycle changes nothing; in both cases
PC is unchanged. The cycle that enters the wait state (WaitKey fetched while
Running, no key available) has already advanced PC by 2 past the wait opcode. -/
theorem wait_key_cycle_spec (cpu : Cpu) (memory : Memory) (display : Display)
    (input : InputBus) (vx : Nat) :
    (cpu.state = .WaitingForKey vx → ∀ key, input.try_get_key_press = some key →
      ∃ cpu', cpu.execute_cycle memory display input = .ok (cpu', memory, display) ∧
        cpu'.v vx = key ∧ cpu'.state = .Running ∧ cpu'.pc = cpu.pc ∧
        (∀ r, r ≠ vx → cpu'.v r = cpu.v r)) ∧
    (cpu.state = .WaitingForKey vx → input.try_get_key_press = none →
      cpu.execute_cycle memory display input = .ok (cpu, memory, display)) ∧
    (cpu.state = .Running → input.try_get_key_press = none →
      decode_opcode ((memory.ram cpu.pc) <<< 8 ||| memory.ram (cpu.pc + 1)) =
        .ok (.WaitKey vx) →
      cpu.pc + 1 < MEMORY_SIZE →
      cpu.execute_cycle memory display input =
        .ok ({ cpu with pc := cpu.pc + 2, state := .WaitingForKey vx },
          memory, display)) := by
  refine ⟨?_, ?_, ?_⟩
  · intro hwait key hkey
    refine ⟨{ cpu.setV vx key with state := .Running }, ?_, ?_, rfl, rfl, ?_⟩
    · simp only [Cpu.execute_cycle, hwait, hkey]
    · simp [Cpu.setV]
    · intro r hr
      simp [Cpu.setV, hr]
  · intro hwait hnone
    simp only [Cpu.execute_cycle, hwait, hnone]
  · intro hrun hnone hdec hpc
    simp only [MEMORY_SIZE] at hpc
    have h1 : ¬(cpu.pc ≥ MEMORY_SIZE - 1) := by
      simp only [MEMORY_SIZE]
      omega
    have h2 : ¬(cpu.pc ≥ MEMORY_SIZE) := by
      simp only [MEMORY_SIZE]
      omega
    have h3 : ¬(cpu.pc + 1 ≥ MEMORY_SIZE) := by
      simp only [MEMORY_SIZE]
      omega
    simp only [Cpu.execute_cycle, hrun, Cpu.fetch_instruction, Memory.read_byte,
      if_neg h1, if_neg h2, if_neg h3, Cpu.execute_instruction, hdec, hnone]

/-- Witness for C5: a CPU waiting in register 2 takes key 0xB and resumes; the
same CPU with no key stays put; a running CPU at 0x200 whose memory holds
opcode 0xF20A there enters WaitingForKey with PC advanced to 0x202. -/
theorem wait_key_cycle_spec_witness :
    (∃ cpu', Cpu.execute_cycle { Cpu.new with state := .WaitingForKey 2 }
        (Memory.new true) Display.new ⟨some 0xB, fun _ => false⟩ =
        .ok (cpu', Memory.new true, Display.new) ∧
      cpu'.v 2 = 0xB ∧ cpu'.state = .Running ∧
      cpu'.pc = { Cpu.new with state := .WaitingForKey 2 }.pc ∧
      (∀ r, r ≠ 2 → cpu'.v r = { Cpu.new with state := .WaitingForKey 2 }.v r)) ∧
    (Cpu.execute_cycle { Cpu.new with state := .WaitingForKey 2 } (Memory.new true)
        Display.new ⟨none, fun _ => false⟩ =
      .ok ({ Cpu.new with state := .WaitingForKey 2 }, Memory.new true, Display.new)) ∧
    (Cpu.execute_cycle Cpu.new
        ⟨fun a => if a = 0x200 then 0xF2 else if a = 0x201 then 0x0A else 0, true⟩
        Display.new ⟨none, fun _ => false⟩ =
      .ok ({ Cpu.new with pc := Cpu.new.pc + 2, state := .WaitingForKey 2 },
        ⟨fun a => if a = 0x200 then 0xF2 else if a = 0x201 then 0x0A else 0, true⟩,
        Display.new)) :=
  ⟨(wait_key_cycle_spec { Cpu.new with state := .WaitingForKey 2 } (Memory.new true)
      Display.new ⟨some 0xB, fun _ => false⟩ 2).1 rfl 0xB rfl,
   (wait_key_cycle_spec { Cpu.new with state := .WaitingForKey 2 } (Memory.new true)
      Display.new ⟨none, fun _ => false⟩ 2).2.1 rfl rfl,
   (wait_key_cycle_spec Cpu.new
      ⟨fun a => if a = 0x200 then 0xF2 else if a = 0x201 then 0x0A else 0, true⟩
      Display.new ⟨none, fun _ => false⟩ 2).2.2 rfl rfl rfl (by decide)⟩

/-- C9: sprite drawing wraps coordinates modulo the display size and never
clips: drawing the full-width row sprite 0xFF at x = 62 on a clear display
reports no collision and sets exactly the pixels in columns 62, 63, 0, 1, 2,
3, 4, 5 of row y mod 32, for every row coordinate y (row indices wrap modulo
32). -/
theorem draw_sprite_wraparound (y r c : Nat) :
    ∃ d, Display.new.draw_sprite 62 y [0xFF] = .ok (false, d) ∧
      (d.framebuffer r c = true ↔ (r = y % 32 ∧
        (c = 62 ∨ c = 63 ∨ c = 0 ∨ c = 1 ∨ c = 2 ∨ c = 3 ∨ c = 4 ∨ c = 5))) := by
  simp only [Display.draw_sprite, Display.new, List.enum, DISPLAY_WIDTH, DISPLAY_HEIGHT]
  unfold Display.draw_row
  simp only [List.range_succ, List.range_zero, List.foldl_cons, List.foldl_nil,
    List.foldl_append]
  unfold Display.draw_bit
  norm_num [DISPLAY_WIDTH, DISPLAY_HEIGHT, Nat.shiftRight_eq_div_pow]
  tauto

end Chip8
